import Mathlib

/-!
Shallow embedding of `src/github_merge_tester.py` (class `GitHubMergeTesterV2`).

External effects (HTTP fetches, git subprocess calls, the interactive
confirmation) are modelled as oracle inputs; the control flow of each Python
method is translated branch by branch.  Machine-irrelevant console printing is
dropped; everything that decides control flow is kept.
-/

/-- Outcome of one `requests.get` on the pull-request detail endpoint during
polling (`check_pr_mergeable_status`): either a response carrying an HTTP
status together with the parsed `mergeable` / `mergeable_state` fields, or a
raised exception. -/
inductive FetchResult where
  | resp (status : Nat) (mergeable : Option Bool) (mergeable_state : String)
  | exn
deriving DecidableEq

/-- Ghost tag recording which `return` statement of
`check_pr_mergeable_status` produced the result (lines 181, 184, 193, 195 via
non-200 status, 195 via `unknown` on the final attempt, 199, 202 of the
source).  The code itself returns only the `(bool, data)` pair; this tag is a
faithful annotation of the control path taken. -/
inductive ExitSite where
  | clean
  | dirty
  | ambiguous
  | badStatus
  | timedOut
  | exceptionExit
  | loopEnd
deriving DecidableEq

/-- Result of `check_pr_mergeable_status`: the returned pair (`ok` = first
component, `data` = the `pr_data` dict modelled as the observed
`(mergeable, mergeable_state)` pair), plus ghost counters for the number of
`requests.get` attempts made and the number of `time.sleep(3)` backoff waits
performed, plus the exit-site tag. -/
structure PollResult where
  ok : Bool
  data : Option (Option Bool × String)
  fetches : Nat
  sleeps : Nat
  site : ExitSite
deriving DecidableEq

/-- `max_attempts = 5` (line 163). -/
def max_attempts : Nat := 5

/-- The body of the `for attempt in range(max_attempts)` loop of
`check_pr_mergeable_status` (lines 164-199).  `fuel` is the number of loop
iterations remaining (`max_attempts - attempt`); `attempt` is the Python loop
variable; `fetches` and `sleeps` accumulate the ghost counters.  Falling off
the loop (fuel 0) corresponds to lines 201-202. -/
def pollLoop (fetch : Nat → FetchResult) : Nat → Nat → Nat → Nat → PollResult
  | 0, _, fetches, sleeps => ⟨false, none, fetches, sleeps, ExitSite.loopEnd⟩
  | fuel + 1, attempt, fetches, sleeps =>
    match fetch attempt with
    | FetchResult.exn => ⟨false, none, fetches + 1, sleeps, ExitSite.exceptionExit⟩
    | FetchResult.resp code m st =>
      if code = 200 then
        if m = some true ∧ st = "clean" then
          ⟨true, some (m, st), fetches + 1, sleeps, ExitSite.clean⟩
        else if m = some false ∧ st = "dirty" then
          ⟨false, some (m, st), fetches + 1, sleeps, ExitSite.dirty⟩
        else if st = "unknown" then
          if attempt < max_attempts - 1 then
            pollLoop fetch fuel (attempt + 1) (fetches + 1) (sleeps + 1)
          else
            ⟨false, none, fetches + 1, sleeps, ExitSite.timedOut⟩
        else
          ⟨false, some (m, st), fetches + 1, sleeps, ExitSite.ambiguous⟩
      else
        ⟨false, none, fetches + 1, sleeps, ExitSite.badStatus⟩

/-- `check_pr_mergeable_status` (lines 159-202), as a function of the fetch
oracle giving the attempt-indexed responses of the pull-request detail
endpoint. -/
def check_pr_mergeable_status (fetch : Nat → FetchResult) : PollResult :=
  pollLoop fetch max_attempts 0 0 0

example :
    check_pr_mergeable_status (fun _ => FetchResult.resp 200 (some true) "clean") =
      ⟨true, some (some true, "clean"), 1, 0, ExitSite.clean⟩ := by decide

example :
    check_pr_mergeable_status (fun _ => FetchResult.resp 200 none "unknown") =
      ⟨false, none, 5, 4, ExitSite.timedOut⟩ := by decide

example :
    check_pr_mergeable_status (fun _ => FetchResult.resp 200 none "blocked") =
      ⟨false, some (none, "blocked"), 1, 0, ExitSite.ambiguous⟩ := by decide

/-- The state of the local working copy and the remote that the script
mutates: the currently checked-out branch, whether the disposable test branch
exists locally and remotely, and whether the local marker file
`test_merge_file.txt` exists. -/
structure GitState where
  current : String
  localTestBranch : Bool
  remoteTestBranch : Bool
  marker : Bool
deriving DecidableEq

/-- `create_clean_test_branch` (lines 84-120).  The seven fallible steps of
the `try` block, in source order, are indexed 0-6:
0 `git checkout main`, 1 `git pull origin main`,
2 `git checkout -b test_branch`, 3 write the marker file,
4 `git add`, 5 `git commit`, 6 `git push origin test_branch`.
`ok k` says whether step `k` succeeds; the first failing step raises, the
`except` block returns `None`, and the state mutations of the completed steps
remain.  On success the branch name `test-merge-clean-<timestamp>` is
returned. -/
def create_clean_test_branch (ok : Nat → Bool) (timestamp : String)
    (st : GitState) : GitState × Option String :=
  let test_branch := "test-merge-clean-" ++ timestamp
  if ok 0 = false then (st, none) else
  let st0 := { st with current := "main" }
  if ok 1 = false then (st0, none) else
  if ok 2 = false then (st0, none) else
  let st2 := { st0 with current := test_branch, localTestBranch := true }
  if ok 3 = false then (st2, none) else
  let st3 := { st2 with marker := true }
  if ok 4 = false then (st3, none) else
  if ok 5 = false then (st3, none) else
  if ok 6 = false then (st3, none) else
  ({ st3 with remoteTestBranch := true }, some test_branch)

/-- `create_test_pr_clean` (lines 122-157), reduced to the value of
`pr_number` it returns: on an exception or a status outside `[200, 201]` it
returns `None`; otherwise it returns `pr_info.get('number')` (which is itself
`None` when the response lacks the field). -/
def create_test_pr_clean (exnRaised : Bool) (status : Nat)
    (numberField : Option Nat) : Option Nat :=
  if exnRaised then none
  else if status = 200 ∨ status = 201 then numberField
  else none

/-- Python truthiness of `pr_number` as used by `if not pr_number:`
(line 329): `None` and `0` are falsy. -/
def prTruthy : Option Nat → Bool
  | none => false
  | some n => decide (n ≠ 0)

/-- `test_auto_merge_clean` (lines 204-235), reduced to its returned boolean:
`True` exactly when the merge `PUT` raised no exception and answered
HTTP 200. -/
def test_auto_merge_clean (exnRaised : Bool) (status : Nat) : Bool :=
  if exnRaised then false else decide (status = 200)

/-- Result of `cleanup_test_branch`: the final git state, the ghost list of
steps attempted (in order), and whether the `except` branch ran (the printed
warning, i.e. the failure report).  The function always returns normally: the
exception is caught inside (lines 258-259). -/
structure CleanupResult where
  st : GitState
  executed : List Nat
  warned : Bool
deriving DecidableEq

/-- `cleanup_test_branch` (lines 237-259).  The fallible steps of the `try`
block, in source order, are indexed 0-3: 0 `git checkout main`,
1 `git branch -D`, 2 `git push origin --delete`, 3 `os.remove` of the marker
file (attempted only when the file exists, per the `os.path.exists` guard).
The first failing step raises; the `except` block reports the error and
returns, leaving the remaining steps unexecuted. -/
def cleanup_test_branch (ok : Nat → Bool) (st : GitState) : CleanupResult :=
  if ok 0 = false then ⟨st, [0], true⟩ else
  let st0 := { st with current := "main" }
  if ok 1 = false then ⟨st0, [0, 1], true⟩ else
  let st1 := { st0 with localTestBranch := false }
  if ok 2 = false then ⟨st1, [0, 1, 2], true⟩ else
  let st2 := { st1 with remoteTestBranch := false }
  if st2.marker then
    if ok 3 = false then ⟨st2, [0, 1, 2, 3], true⟩
    else ⟨{ st2 with marker := false }, [0, 1, 2, 3], false⟩
  else ⟨st2, [0, 1, 2], false⟩

/-- One open pull request as seen by the Conflict Surveyor: its number, the
HTTP status its detail fetch answers, and the `mergeable_state` field of the
detail body. -/
structure SurveyPR where
  number : Nat
  detailStatus : Nat
  mergeable_state : String
deriving DecidableEq

/-- The `for pr in open_prs` loop of `test_conflict_resolution_strategy`
(lines 274-280): a pull request is appended to `conflicted_prs` exactly when
its detail fetch answers 200 and reports `mergeable_state == 'dirty'`; any
other detail status is skipped and the loop continues with the next pull
request. -/
def surveyLoop : List SurveyPR → List SurveyPR
  | [] => []
  | p :: rest =>
    if p.detailStatus = 200 then
      if p.mergeable_state = "dirty" then p :: surveyLoop rest
      else surveyLoop rest
    else surveyLoop rest

/-- `test_conflict_resolution_strategy` (lines 261-301), reduced to the
`conflicted_prs` list it builds: nothing is collected unless the open-PR
listing answered 200. -/
def test_conflict_resolution_strategy (listStatus : Nat)
    (open_prs : List SurveyPR) : List SurveyPR :=
  if listStatus = 200 then surveyLoop open_prs else []

/-!
The regular expression of `get_repo_name` (line 75) matched against the
remote URL.  Spelled out, the pattern requires, anchored at the end of the
string: one `:` or `/`, then group 1, then an optional literal `.git`.
Group 1 is `segA / segB` where `segA` is one or more characters none of which
is `/`, and `segB` is one or more characters none of which is `.` (so `segB`
may itself contain `/`).

Python's backtracking semantics collapse here to a deterministic reading:

* `segB` followed by the optional `.git` and the anchor must consume the rest
  of the input, so `segB` must be exactly the maximal dot-free run — any
  shorter choice leaves a non-dot character where only `.git` or the end of
  input may follow; the leftover after that run must be empty or exactly
  `.git`.
* `segA` must be exactly the maximal slash-free run before the next `/` — a
  shorter choice leaves a non-slash character where the literal `/` must
  follow.
* `re.search` takes the leftmost `:`/`/` at which the whole tail matches.
-/

/-- The characters `.git`, i.e. the optional suffix of the pattern. -/
def gitSuffix : List Char := ['.', 'g', 'i', 't']

/-- Match `[^.]+(\.git)?$` against `cs` and return the characters consumed by
the `[^.]+` part. -/
def segBMatch (cs : List Char) : Option (List Char) :=
  let p := cs.takeWhile (fun c => c ≠ '.')
  let r := cs.dropWhile (fun c => c ≠ '.')
  if p = [] then none
  else if r = [] ∨ r = gitSuffix then some p
  else none

/-- Match `[^/]+/[^.]+(\.git)?$` against `cs` and return the two segment
character runs of group 1. -/
def segAMatch (cs : List Char) : Option (List Char × List Char) :=
  let a := cs.takeWhile (fun c => c ≠ '/')
  let b := cs.dropWhile (fun c => c ≠ '/')
  if a = [] then none
  else
    match b with
    | [] => none
    | _ :: rest => (segBMatch rest).map (fun s2 => (a, s2))

/-- `re.search` of the pattern over the URL: scan left to right for a `:` or
`/` at which the anchored tail matches, and return group 1
(`segA ++ "/" ++ segB`). -/
def reSearchRepo : List Char → Option (List Char)
  | [] => none
  | c :: rest =>
    if c = ':' ∨ c = '/' then
      match segAMatch rest with
      | some (a, b) => some (a ++ '/' :: b)
      | none => reSearchRepo rest
    else reSearchRepo rest

/-- `get_repo_name` (lines 63-82) as a function of whether the
`git config --get remote.origin.url` subprocess succeeds and of the stripped
URL it prints: `none` models the `return False` paths (subprocess failure or
no regex match), `some repo` models `self.repo_name = match.group(1)`. -/
def get_repo_name (gitCfgOk : Bool) (url : String) : Option String :=
  if gitCfgOk then (reSearchRepo url.toList).map (fun g => String.mk g)
  else none

example : get_repo_name true "git@github.com:org/repo.git" = some "org/repo" := by decide

example : get_repo_name true "https://github.com/org/repo.js" = none := by decide

/-- The oracle inputs of one `run_full_test` run: the initial git state and
the outcomes of every external interaction, in the order the source consults
them. -/
structure RunEnv where
  init : GitState
  tokenOk : Bool
  gitCfgOk : Bool
  remoteUrl : String
  confirmed : Bool
  timestamp : String
  provOk : Nat → Bool
  prExn : Bool
  prStatus : Nat
  prNumberField : Option Nat
  fetch : Nat → FetchResult
  mergeExn : Bool
  mergeStatus : Nat
  cleanOk : Nat → Bool

/-- Observable outcome of `run_full_test`: the final git state, whether the
merge endpoint was ever `PUT` (`mergeCalled`), the final value of the Python
local `merge_success` (`none` models the variable never being assigned),
whether `cleanup_test_branch` was invoked, whether the run escaped with an
unhandled `UnboundLocalError` (`crashed`), and whether Test 2 (the conflict
survey, line 353) was reached. -/
structure RunResult where
  git : GitState
  mergeCalled : Bool
  merge_success : Option Bool
  cleanupCalled : Bool
  crashed : Bool
  surveyRan : Bool
deriving DecidableEq

/-- The result of the early-`return` paths of `run_full_test`, which touch
nothing. -/
def baseResult (st : GitState) : RunResult :=
  { git := st, mergeCalled := false, merge_success := none,
    cleanupCalled := false, crashed := false, surveyRan := false }

/-- `run_full_test` (lines 303-360), branch by branch:
token load, repository-name resolution, interactive confirmation,
provisioning, pull-request creation (with cleanup-and-return on failure),
polling, the `if is_mergeable:` guard around `test_auto_merge_clean`, and the
`if not merge_success:` cleanup guard at line 347.  When `is_mergeable` is
false, `merge_success` was never assigned, so line 347 raises
`UnboundLocalError` and the run aborts before cleanup and before Test 2 —
modelled by `crashed := true`. -/
def run_full_test (env : RunEnv) : RunResult :=
  if env.tokenOk = false then baseResult env.init else
  match get_repo_name env.gitCfgOk env.remoteUrl with
  | none => baseResult env.init
  | some _ =>
  if env.confirmed = false then baseResult env.init else
  match create_clean_test_branch env.provOk env.timestamp env.init with
  | (st1, none) => baseResult st1
  | (st1, some _) =>
    if prTruthy (create_test_pr_clean env.prExn env.prStatus env.prNumberField)
        = false then
      let c := cleanup_test_branch env.cleanOk st1
      { git := c.st, mergeCalled := false, merge_success := none,
        cleanupCalled := true, crashed := false, surveyRan := false }
    else
      if (check_pr_mergeable_status env.fetch).ok then
        if test_auto_merge_clean env.mergeExn env.mergeStatus then
          { git := st1, mergeCalled := true, merge_success := some true,
            cleanupCalled := false, crashed := false, surveyRan := true }
        else
          let c := cleanup_test_branch env.cleanOk st1
          { git := c.st, mergeCalled := true, merge_success := some false,
            cleanupCalled := true, crashed := false, surveyRan := true }
      else
        { git := st1, mergeCalled := false, merge_success := none,
          cleanupCalled := false, crashed := true, surveyRan := false }

/-- The run reaches the polling stage exactly when the token loads, the
repository name resolves, the user confirms, provisioning succeeds and the
created pull request has a truthy number. -/
def pollReached (env : RunEnv) : Bool :=
  env.tokenOk && (get_repo_name env.gitCfgOk env.remoteUrl).isSome &&
  env.confirmed &&
  (create_clean_test_branch env.provOk env.timestamp env.init).2.isSome &&
  prTruthy (create_test_pr_clean env.prExn env.prStatus env.prNumberField)

/-!  Helper lemmas. -/

lemma pollLoop_unknown_step (fetch : Nat → FetchResult)
    (fuel attempt fetches sleeps : Nat) (m : Option Bool)
    (hf : fetch attempt = FetchResult.resp 200 m "unknown")
    (hlt : attempt < max_attempts - 1) :
    pollLoop fetch (fuel + 1) attempt fetches sleeps =
      pollLoop fetch fuel (attempt + 1) (fetches + 1) (sleeps + 1) := by
  have h1 : ¬(m = some true ∧ ("unknown" : String) = "clean") := by
    rintro ⟨-, h⟩; exact absurd h (by decide)
  have h2 : ¬(m = some false ∧ ("unknown" : String) = "dirty") := by
    rintro ⟨-, h⟩; exact absurd h (by decide)
  simp only [pollLoop]
  rw [hf]
  simp [h1, h2, hlt]

lemma pollLoop_unknown_last (fetch : Nat → FetchResult)
    (fuel attempt fetches sleeps : Nat) (m : Option Bool)
    (hf : fetch attempt = FetchResult.resp 200 m "unknown")
    (hge : ¬ attempt < max_attempts - 1) :
    pollLoop fetch (fuel + 1) attempt fetches sleeps =
      ⟨false, none, fetches + 1, sleeps, ExitSite.timedOut⟩ := by
  have h1 : ¬(m = some true ∧ ("unknown" : String) = "clean") := by
    rintro ⟨-, h⟩; exact absurd h (by decide)
  have h2 : ¬(m = some false ∧ ("unknown" : String) = "dirty") := by
    rintro ⟨-, h⟩; exact absurd h (by decide)
  simp only [pollLoop]
  rw [hf]
  simp [h1, h2, hge]

/-- Advancing the poll over a run of `unknown` observations: after `k`
all-`unknown` attempts the loop state is attempt `k` with `k` fetches and `k`
sleeps behind it. -/
lemma pollLoop_advance (fetch : Nat → FetchResult) (k : Nat)
    (hk : k < max_attempts)
    (h : ∀ i, i < k → ∃ m, fetch i = FetchResult.resp 200 m "unknown") :
    pollLoop fetch max_attempts 0 0 0 =
      pollLoop fetch (max_attempts - k) k k k := by
  induction k with
  | zero => rfl
  | succ n ih =>
    have hn : n < max_attempts := Nat.lt_of_succ_lt hk
    rcases h n (Nat.lt_succ_self n) with ⟨m, hm⟩
    have hlt : n < max_attempts - 1 := by omega
    have hfuel : max_attempts - n = (max_attempts - (n + 1)) + 1 := by omega
    rw [ih hn (fun i hi => h i (Nat.lt_succ_of_lt hi)), hfuel,
      pollLoop_unknown_step fetch _ n n n m hm hlt]

/-- The poll reports success exactly when it exited at the ready-clean site
(line 181 of the source). -/
lemma pollLoop_ok_iff_clean (fetch : Nat → FetchResult) :
    ∀ fuel attempt fetches sleeps,
      ((pollLoop fetch fuel attempt fetches sleeps).ok = true ↔
        (pollLoop fetch fuel attempt fetches sleeps).site = ExitSite.clean)
  | 0, _, _, _ => by simp [pollLoop]
  | fuel + 1, a, f, s => by
    rw [pollLoop]
    cases hf : fetch a with
    | exn => simp
    | resp code m st =>
      dsimp only
      split
      · split
        · simp
        · split
          · simp
          · split
            · split
              · exact pollLoop_ok_iff_clean fetch fuel (a + 1) (f + 1) (s + 1)
              · simp
            · simp
      · simp

/-- If the poll made at least two fetches, the first observation was an
HTTP-200 response with `mergeable_state == 'unknown'` (nothing else is ever
retried). -/
lemma pollLoop_retry_only_unknown (fetch : Nat → FetchResult)
    (h : 2 ≤ (check_pr_mergeable_status fetch).fetches) :
    ∃ m, fetch 0 = FetchResult.resp 200 m "unknown" := by
  unfold check_pr_mergeable_status at h
  rw [show max_attempts = 4 + 1 from rfl, pollLoop] at h
  cases hf : fetch 0 with
  | exn => rw [hf] at h; simp at h
  | resp code m st =>
    rw [hf] at h
    dsimp only at h
    by_cases h200 : code = 200
    · rw [if_pos h200] at h
      by_cases hc : m = some true ∧ st = "clean"
      · rw [if_pos hc] at h; simp at h
      · rw [if_neg hc] at h
        by_cases hd : m = some false ∧ st = "dirty"
        · rw [if_pos hd] at h; simp at h
        · rw [if_neg hd] at h
          by_cases hu : st = "unknown"
          · subst h200; subst hu; exact ⟨m, rfl⟩
          · rw [if_neg hu] at h; simp at h
    · rw [if_neg h200] at h; simp at h

/-- `mergeCalled` in terms of reaching the poll and the poll result. -/
lemma run_mergeCalled (env : RunEnv) :
    (run_full_test env).mergeCalled =
      (pollReached env && (check_pr_mergeable_status env.fetch).ok) := by
  unfold run_full_test pollReached
  cases htok : env.tokenOk
  · simp [baseResult]
  · cases hrepo : get_repo_name env.gitCfgOk env.remoteUrl with
    | none => simp [hrepo, baseResult]
    | some r =>
      cases hconf : env.confirmed
      · simp [hrepo, baseResult]
      · rcases hprov : create_clean_test_branch env.provOk env.timestamp env.init
          with ⟨st1, tb⟩
        cases tb with
        | none => simp [hrepo, hprov, baseResult]
        | some b =>
          cases hpr : prTruthy
              (create_test_pr_clean env.prExn env.prStatus env.prNumberField)
          · simp [hrepo, hprov, hpr]
          · cases hok : (check_pr_mergeable_status env.fetch).ok
            · simp [hrepo, hprov, hpr, hok]
            · cases hm : test_auto_merge_clean env.mergeExn env.mergeStatus <;>
                simp [hrepo, hprov, hpr, hok, hm]

/-- `surveyLoop` collects exactly the 200-status dirty pull requests. -/
lemma mem_surveyLoop (q : SurveyPR) :
    ∀ prs : List SurveyPR,
      (q ∈ surveyLoop prs ↔
        q ∈ prs ∧ q.detailStatus = 200 ∧ q.mergeable_state = "dirty")
  | [] => by simp [surveyLoop]
  | p :: rest => by
    rw [surveyLoop]
    by_cases h200 : p.detailStatus = 200
    · rw [if_pos h200]
      by_cases hd : p.mergeable_state = "dirty"
      · rw [if_pos hd]
        simp only [List.mem_cons, mem_surveyLoop q rest]
        constructor
        · rintro (rfl | ⟨hq, h1, h2⟩)
          · exact ⟨Or.inl rfl, h200, hd⟩
          · exact ⟨Or.inr hq, h1, h2⟩
        · rintro ⟨rfl | hq, h1, h2⟩
          · exact Or.inl rfl
          · exact Or.inr ⟨hq, h1, h2⟩
      · rw [if_neg hd]
        simp only [List.mem_cons, mem_surveyLoop q rest]
        constructor
        · rintro ⟨hq, h1, h2⟩
          exact ⟨Or.inr hq, h1, h2⟩
        · rintro ⟨rfl | hq, h1, h2⟩
          · exact absurd h2 hd
          · exact ⟨hq, h1, h2⟩
    · rw [if_neg h200]
      simp only [List.mem_cons, mem_surveyLoop q rest]
      constructor
      · rintro ⟨hq, h1, h2⟩
        exact ⟨Or.inr hq, h1, h2⟩
      · rintro ⟨rfl | hq, h1, h2⟩
        · exact absurd h1 h200
        · exact ⟨hq, h1, h2⟩

/-- Whenever the cleanup checkout step succeeds, the working copy ends on
`main`, whatever the later steps do. -/
lemma cleanup_current (ok : Nat → Bool) (st : GitState) (h : ok 0 = true) :
    (cleanup_test_branch ok st).st.current = "main" := by
  unfold cleanup_test_branch
  cases h1 : ok 1 <;> cases h2 : ok 2 <;> cases h3 : ok 3 <;>
    cases hm : st.marker <;> simp [h, h1, h2, h3, hm]

/-- On every control path of the run, an invocation of `cleanup_test_branch`
never makes the run crash: `cleanup_test_branch` catches its own exception
(lines 258-259), so only the unbound `merge_success` path — which never calls
cleanup — sets `crashed`. -/
lemma run_cleanup_no_crash (env : RunEnv) :
    (run_full_test env).cleanupCalled = true →
      (run_full_test env).crashed = false := by
  cases htok : env.tokenOk
  · simp [run_full_test, htok, baseResult]
  · cases hrepo : get_repo_name env.gitCfgOk env.remoteUrl with
    | none => simp [run_full_test, htok, hrepo, baseResult]
    | some r =>
      cases hconf : env.confirmed
      · simp [run_full_test, htok, hrepo, hconf, baseResult]
      · rcases hprov : create_clean_test_branch env.provOk env.timestamp env.init
          with ⟨st1, tb⟩
        cases tb with
        | none => simp [run_full_test, htok, hrepo, hconf, hprov, baseResult]
        | some b =>
          cases hpr : prTruthy
              (create_test_pr_clean env.prExn env.prStatus env.prNumberField)
          · simp [run_full_test, htok, hrepo, hconf, hprov, hpr]
          · cases hok : (check_pr_mergeable_status env.fetch).ok
            · simp [run_full_test, htok, hrepo, hconf, hprov, hpr, hok]
            · cases hm : test_auto_merge_clean env.mergeExn env.mergeStatus <;>
                simp [run_full_test, htok, hrepo, hconf, hprov, hpr, hok, hm]

/-!  The claims. -/

/-- Claim C1: for every run, the merge operation (the `PUT` of
`test_auto_merge_clean`) is invoked exactly when the run reaches the poll and
the poll returns its success result, and the poll returns success exactly
when it exited at the ready-clean site (an observation of `mergeable` true
and `mergeable_state` clean, line 179); for every other poll outcome no
merge-API call is made. -/
theorem C1_merge_iff_ready_clean :
    (∀ env : RunEnv,
      (run_full_test env).mergeCalled =
        (pollReached env && (check_pr_mergeable_status env.fetch).ok))
    ∧ ∀ fetch : Nat → FetchResult,
        ((check_pr_mergeable_status fetch).ok = true ↔
          (check_pr_mergeable_status fetch).site = ExitSite.clean) :=
  ⟨run_mergeCalled, fun fetch => pollLoop_ok_iff_clean fetch max_attempts 0 0 0⟩

/-- Claim C2: if every fetched observation has `mergeable_state` unknown, the
poller performs exactly `max_attempts = 5` fetches (after 4 backoff waits)
and then returns the timed-out outcome `(False, None)`. -/
theorem C2_all_unknown_times_out (fetch : Nat → FetchResult)
    (h : ∀ i, i < max_attempts →
      ∃ m, fetch i = FetchResult.resp 200 m "unknown") :
    check_pr_mergeable_status fetch =
      ⟨false, none, max_attempts, max_attempts - 1, ExitSite.timedOut⟩ := by
  unfold check_pr_mergeable_status
  rw [pollLoop_advance fetch 4 (by decide)
    (fun i hi => h i (Nat.lt_trans hi (by decide)))]
  rcases h 4 (by decide) with ⟨m, hm⟩
  rw [show max_attempts - 4 = 0 + 1 from rfl,
    pollLoop_unknown_last fetch 0 4 4 4 m hm (by decide)]
  decide

theorem C2_witness :
    check_pr_mergeable_status (fun _ => FetchResult.resp 200 none "unknown") =
      ⟨false, none, max_attempts, max_attempts - 1, ExitSite.timedOut⟩ :=
  C2_all_unknown_times_out _ (fun _ _ => ⟨none, rfl⟩)

/-- Claim C4: if the first fetched observation is `(true, clean)`, the poller
returns the ready-clean outcome after exactly one fetch and no backoff
wait. -/
theorem C4_first_clean_single_fetch (fetch : Nat → FetchResult)
    (h0 : fetch 0 = FetchResult.resp 200 (some true) "clean") :
    check_pr_mergeable_status fetch =
      ⟨true, some (some true, "clean"), 1, 0, ExitSite.clean⟩ := by
  unfold check_pr_mergeable_status
  rw [show max_attempts = 4 + 1 from rfl, pollLoop, h0]
  simp

theorem C4_witness :
    check_pr_mergeable_status
        (fun _ => FetchResult.resp 200 (some true) "clean") =
      ⟨true, some (some true, "clean"), 1, 0, ExitSite.clean⟩ :=
  C4_first_clean_single_fetch _ rfl

/-- Claim C5: an observation fetched at any attempt whose
`(mergeable, mergeable_state)` pair is neither `(true, clean)` nor
`(false, dirty)` nor of state unknown — for example `(null, "blocked")` —
makes the poller return the ambiguous outcome immediately on that fetch, with
no retry and no further backoff, and the run never calls the merge API under
such a fetch oracle. -/
theorem C5_unrecognized_state_ambiguous (fetch : Nat → FetchResult) (k : Nat)
    (m : Option Bool) (st : String)
    (hk : k < max_attempts)
    (hpre : ∀ i, i < k → ∃ mi, fetch i = FetchResult.resp 200 mi "unknown")
    (h0 : fetch k = FetchResult.resp 200 m st)
    (hc : ¬(m = some true ∧ st = "clean"))
    (hd : ¬(m = some false ∧ st = "dirty"))
    (hu : st ≠ "unknown") :
    check_pr_mergeable_status fetch =
      ⟨false, some (m, st), k + 1, k, ExitSite.ambiguous⟩
    ∧ ∀ env : RunEnv, env.fetch = fetch →
        (run_full_test env).mergeCalled = false := by
  have hpoll : check_pr_mergeable_status fetch =
      ⟨false, some (m, st), k + 1, k, ExitSite.ambiguous⟩ := by
    unfold check_pr_mergeable_status
    rw [pollLoop_advance fetch k hk hpre,
      show max_attempts - k = (max_attempts - k - 1) + 1 from by omega,
      pollLoop, h0]
    simp [hc, hd, hu]
  refine ⟨hpoll, fun env henv => ?_⟩
  rw [run_mergeCalled, henv, hpoll]
  simp

/-- A concrete environment whose first poll observation is
`(null, "blocked")`. -/
def envC5 : RunEnv :=
  { init := ⟨"main", false, false, false⟩
    tokenOk := true
    gitCfgOk := true
    remoteUrl := "git@github.com:org/repo.git"
    confirmed := true
    timestamp := "101010"
    provOk := fun _ => true
    prExn := false
    prStatus := 201
    prNumberField := some 7
    fetch := fun _ => FetchResult.resp 200 none "blocked"
    mergeExn := false
    mergeStatus := 200
    cleanOk := fun _ => true }

theorem C5_witness :
    check_pr_mergeable_status (fun _ => FetchResult.resp 200 none "blocked") =
      ⟨false, some (none, "blocked"), 0 + 1, 0, ExitSite.ambiguous⟩
    ∧ (run_full_test envC5).mergeCalled = false :=
  ⟨(C5_unrecognized_state_ambiguous _ 0 none "blocked" (by decide)
      (fun i hi => absurd hi (Nat.not_lt_zero i)) rfl (by decide)
      (by decide) (by decide)).1,
   (C5_unrecognized_state_ambiguous envC5.fetch 0 none "blocked" (by decide)
      (fun i hi => absurd hi (Nat.not_lt_zero i)) rfl (by decide)
      (by decide) (by decide)).2 envC5 rfl⟩

/-- Claim C9: once the loop arrives at an attempt whose fetch answers a
non-200 status or raises, the poll ends right there with the non-mergeable
result `(False, None)` — the remaining attempts are not consumed and no
further backoff wait happens — and a retry ever happens only after an
HTTP-200 observation with `mergeable_state` unknown. -/
theorem C9_fetch_failure_ends_poll (fetch : Nat → FetchResult) (k : Nat)
    (hk : k < max_attempts)
    (hpre : ∀ i, i < k → ∃ m, fetch i = FetchResult.resp 200 m "unknown")
    (hbad : fetch k = FetchResult.exn ∨
      ∃ c m st, c ≠ 200 ∧ fetch k = FetchResult.resp c m st) :
    ((check_pr_mergeable_status fetch).ok = false
      ∧ (check_pr_mergeable_status fetch).data = none
      ∧ (check_pr_mergeable_status fetch).fetches = k + 1
      ∧ (check_pr_mergeable_status fetch).sleeps = k)
    ∧ ∀ f : Nat → FetchResult, 2 ≤ (check_pr_mergeable_status f).fetches →
        ∃ m, f 0 = FetchResult.resp 200 m "unknown" := by
  refine ⟨?_, pollLoop_retry_only_unknown⟩
  unfold check_pr_mergeable_status
  rw [pollLoop_advance fetch k hk hpre,
    show max_attempts - k = (max_attempts - k - 1) + 1 from by omega, pollLoop]
  rcases hbad with hx | ⟨c, m, st, hc, hx⟩
  · rw [hx]
    exact ⟨rfl, rfl, rfl, rfl⟩
  · rw [hx]
    dsimp only
    rw [if_neg hc]
    exact ⟨rfl, rfl, rfl, rfl⟩

/-- A fetch oracle whose first observation is unknown and whose second fetch
raises. -/
def fetchC9 : Nat → FetchResult :=
  fun i => if i = 0 then FetchResult.resp 200 none "unknown"
    else FetchResult.exn

theorem C9_witness :
    (check_pr_mergeable_status fetchC9).ok = false
    ∧ (check_pr_mergeable_status fetchC9).data = none
    ∧ (check_pr_mergeable_status fetchC9).fetches = 1 + 1
    ∧ (check_pr_mergeable_status fetchC9).sleeps = 1 :=
  (C9_fetch_failure_ends_poll fetchC9 1 (by decide)
    (fun i hi => ⟨none, by interval_cases i; rfl⟩) (Or.inl rfl)).1

/-- Claim C7: a pull request whose detail fetch answers a bad (non-200)
response is skipped by the Conflict Surveyor, while every other pull request
of the enumeration is still classified (it lands in the conflicted list
exactly when its state is dirty); the survey itself never aborts. -/
theorem C7_survey_skips_failed_fetch (prs : List SurveyPR) (p : SurveyPR)
    (_hp : p ∈ prs) (hfail : p.detailStatus ≠ 200) :
    p ∉ test_conflict_resolution_strategy 200 prs
    ∧ ∀ q, q ∈ prs → q.detailStatus = 200 →
        (q ∈ test_conflict_resolution_strategy 200 prs ↔
          q.mergeable_state = "dirty") := by
  constructor
  · intro hmem
    rw [test_conflict_resolution_strategy, if_pos rfl] at hmem
    exact hfail ((mem_surveyLoop p prs).1 hmem).2.1
  · intro q hq h200
    rw [test_conflict_resolution_strategy, if_pos rfl, mem_surveyLoop]
    constructor
    · rintro ⟨-, -, hdirty⟩; exact hdirty
    · intro hdirty; exact ⟨hq, h200, hdirty⟩

/-- A survey population where pull request 7's detail fetch fails. -/
def prsC7 : List SurveyPR :=
  [⟨5, 200, "dirty"⟩, ⟨7, 500, "dirty"⟩, ⟨9, 200, "clean"⟩]

theorem C7_witness :
    SurveyPR.mk 7 500 "dirty" ∉ test_conflict_resolution_strategy 200 prsC7
    ∧ SurveyPR.mk 5 200 "dirty" ∈ test_conflict_resolution_strategy 200 prsC7 :=
  ⟨(C7_survey_skips_failed_fetch prsC7 _ (by decide) (by decide)).1,
   ((C7_survey_skips_failed_fetch prsC7 (SurveyPR.mk 7 500 "dirty")
        (by decide) (by decide)).2
      (SurveyPR.mk 5 200 "dirty") (by decide) rfl).mpr rfl⟩

/-- Claim C8: cleanup runs its steps in the fixed order checkout trunk (0),
delete local branch (1), delete remote branch (2), remove marker file (3);
the first failing step aborts all remaining ones — in particular a failed
local-branch delete (step 1) leaves the remote branch and the marker file in
place — the failure is reported (`warned`), and a cleanup invocation never
makes the overall run crash. -/
theorem C8_cleanup_first_failure_aborts_rest (st : GitState) (ok : Nat → Bool)
    (i : Nat) (hi : i < 4) (hprev : ∀ j, j < i → ok j = true)
    (hfail : ok i = false) (hm : st.marker = true) :
    ((cleanup_test_branch ok st).executed = List.range (i + 1)
      ∧ (cleanup_test_branch ok st).warned = true
      ∧ (i = 1 →
          (cleanup_test_branch ok st).st.remoteTestBranch = st.remoteTestBranch
          ∧ (cleanup_test_branch ok st).st.marker = true))
    ∧ ∀ env : RunEnv, (run_full_test env).cleanupCalled = true →
        (run_full_test env).crashed = false := by
  refine ⟨?_, run_cleanup_no_crash⟩
  interval_cases i
  · have e : cleanup_test_branch ok st = ⟨st, [0], true⟩ := by
      unfold cleanup_test_branch; rw [if_pos hfail]
    rw [e]
    exact ⟨show [0] = List.range (0 + 1) by decide, rfl,
      fun h => absurd h (by decide)⟩
  · have h0 := hprev 0 (by decide)
    have e : cleanup_test_branch ok st =
        ⟨⟨"main", st.localTestBranch, st.remoteTestBranch, true⟩,
          [0, 1], true⟩ := by
      simp [cleanup_test_branch, h0, hfail, hm]
    rw [e]
    exact ⟨show [0, 1] = List.range (1 + 1) by decide, rfl,
      fun _ => ⟨rfl, rfl⟩⟩
  · have h0 := hprev 0 (by decide)
    have h1 := hprev 1 (by decide)
    have e : cleanup_test_branch ok st =
        ⟨⟨"main", false, st.remoteTestBranch, true⟩, [0, 1, 2], true⟩ := by
      simp [cleanup_test_branch, h0, h1, hfail, hm]
    rw [e]
    exact ⟨show [0, 1, 2] = List.range (2 + 1) by decide, rfl,
      fun h => absurd h (by decide)⟩
  · have h0 := hprev 0 (by decide)
    have h1 := hprev 1 (by decide)
    have h2 := hprev 2 (by decide)
    have e : cleanup_test_branch ok st =
        ⟨⟨"main", false, false, true⟩, [0, 1, 2, 3], true⟩ := by
      simp [cleanup_test_branch, h0, h1, h2, hfail, hm]
    rw [e]
    exact ⟨show [0, 1, 2, 3] = List.range (3 + 1) by decide, rfl,
      fun h => absurd h (by decide)⟩

/-- A cleanup oracle whose local-branch delete (step 1) fails. -/
def okC8 : Nat → Bool := fun i => decide (i ≠ 1)

/-- A git state mid-run: test branch checked out, existing locally and
remotely, marker file present. -/
def stC8 : GitState := ⟨"test-merge-clean-101010", true, true, true⟩

theorem C8_witness :
    (cleanup_test_branch okC8 stC8).executed = List.range 2
    ∧ (cleanup_test_branch okC8 stC8).warned = true
    ∧ (cleanup_test_branch okC8 stC8).st.remoteTestBranch =
        stC8.remoteTestBranch
    ∧ (cleanup_test_branch okC8 stC8).st.marker = true := by
  have h := (C8_cleanup_first_failure_aborts_rest stC8 okC8 1 (by decide)
    (fun j hj => by interval_cases j; rfl) rfl rfl).1
  exact ⟨h.1, h.2.1, (h.2.2 rfl).1, (h.2.2 rfl).2⟩

/-- The oracle environment of a run in which everything up to the poll
succeeds and the first observation reports a conflict `(false, dirty)`. -/
def envC3 : RunEnv :=
  { init := ⟨"main", false, false, false⟩
    tokenOk := true
    gitCfgOk := true
    remoteUrl := "git@github.com:org/repo.git"
    confirmed := true
    timestamp := "101010"
    provOk := fun _ => true
    prExn := false
    prStatus := 201
    prNumberField := some 7
    fetch := fun _ => FetchResult.resp 200 (some false) "dirty"
    mergeExn := false
    mergeStatus := 200
    cleanOk := fun _ => true }

/-- Claim C3 (code bug): when the poll outcome is not ready-clean (here:
conflicted), `merge_success` is never assigned, so the cleanup guard
`if not merge_success:` at line 347 raises `UnboundLocalError`; the run
aborts without ever invoking cleanup for the test branch, contradicting the
claim that cleanup runs whenever the merge was not reported successful.  (The
spec itself flags this variable as a bug to fix.)  Evaluating the embedded
run at the failing input: the run crashes, cleanup is never called, the merge
API is never called, and the survey never runs; the un-cleaned test branch
survives locally and remotely with the marker file in place. -/
theorem C3_unbound_merge_success_is_a_bug :
    (run_full_test envC3).crashed = true
    ∧ (run_full_test envC3).cleanupCalled = false
    ∧ (run_full_test envC3).mergeCalled = false
    ∧ (run_full_test envC3).surveyRan = false
    ∧ (run_full_test envC3).git =
        ⟨"test-merge-clean-101010", true, true, true⟩ := by decide







/-- The oracle environment of a run whose provisioning fails at the push step
(step 6), after the create-and-switch step has already moved the working copy
onto the test branch. -/
def envC6 : RunEnv :=
  { init := ⟨"main", false, false, false⟩
    tokenOk := true
    gitCfgOk := true
    remoteUrl := "git@github.com:org/repo.git"
    confirmed := true
    timestamp := "101010"
    provOk := fun i => decide (i ≠ 6)
    prExn := false
    prStatus := 201
    prNumberField := some 7
    fetch := fun _ => FetchResult.resp 200 (some true) "clean"
    mergeExn := false
    mergeStatus := 200
    cleanOk := fun _ => true }

/-- Claim C6 is refuted: when provisioning fails after the create-and-switch
step (here the push fails), `create_clean_test_branch` returns `None` from
its `except` block without checking out trunk again, and `run_full_test`
returns at once — the working copy ends the run on the test branch, not on
trunk. -/
theorem C6_counterexample :
    (run_full_test envC6).git.current = "test-merge-clean-101010"
    ∧ (run_full_test envC6).git.current ≠ "main" := by decide

/-- Claim C6 as amended: trunk restoration is not guaranteed on every path.
On the path where pull-request creation fails, cleanup runs and its checkout
step (when it succeeds) does put the working copy back on trunk; but on the
path where provisioning fails at the push step the run returns with the test
branch still checked out. -/
theorem C6_amended_trunk_restore :
    (∀ env : RunEnv, env.tokenOk = true →
      (get_repo_name env.gitCfgOk env.remoteUrl).isSome = true →
      env.confirmed = true →
      (∀ j, j < 7 → env.provOk j = true) →
      prTruthy (create_test_pr_clean env.prExn env.prStatus env.prNumberField)
        = false →
      env.cleanOk 0 = true →
      (run_full_test env).git.current = "main")
    ∧ ∀ env : RunEnv, env.tokenOk = true →
      (get_repo_name env.gitCfgOk env.remoteUrl).isSome = true →
      env.confirmed = true →
      (∀ j, j < 6 → env.provOk j = true) →
      env.provOk 6 = false →
      (run_full_test env).git.current = "test-merge-clean-" ++ env.timestamp := by
  constructor
  · intro env htok hrepo hconf hprov hpr hclean
    cases hr : get_repo_name env.gitCfgOk env.remoteUrl with
    | none => rw [hr] at hrepo; simp at hrepo
    | some r =>
      have e : create_clean_test_branch env.provOk env.timestamp env.init =
          ({ current := "test-merge-clean-" ++ env.timestamp,
             localTestBranch := true,
             remoteTestBranch := true, marker := true },
            some ("test-merge-clean-" ++ env.timestamp)) := by
        unfold create_clean_test_branch
        simp [hprov 0 (by decide), hprov 1 (by decide), hprov 2 (by decide),
          hprov 3 (by decide), hprov 4 (by decide), hprov 5 (by decide),
          hprov 6 (by decide)]
      simp [run_full_test, htok, hr, hconf, e, hpr]
      exact cleanup_current env.cleanOk _ hclean
  · intro env htok hrepo hconf hprov hpush
    cases hr : get_repo_name env.gitCfgOk env.remoteUrl with
    | none => rw [hr] at hrepo; simp at hrepo
    | some r =>
      have e : create_clean_test_branch env.provOk env.timestamp env.init =
          ({ current := "test-merge-clean-" ++ env.timestamp,
             localTestBranch := true,
             remoteTestBranch := env.init.remoteTestBranch, marker := true },
            none) := by
        unfold create_clean_test_branch
        simp [hprov 0 (by decide), hprov 1 (by decide), hprov 2 (by decide),
          hprov 3 (by decide), hprov 4 (by decide), hprov 5 (by decide),
          hpush]
      simp only [run_full_test, htok, hr, hconf, e]
      simp [baseResult]

/-- A run identical to `envC6` except that provisioning succeeds and
pull-request creation fails with HTTP 422. -/
def envC6pr : RunEnv :=
  { init := ⟨"main", false, false, false⟩
    tokenOk := true
    gitCfgOk := true
    remoteUrl := "git@github.com:org/repo.git"
    confirmed := true
    timestamp := "101010"
    provOk := fun _ => true
    prExn := false
    prStatus := 422
    prNumberField := none
    fetch := fun _ => FetchResult.resp 200 (some true) "clean"
    mergeExn := false
    mergeStatus := 200
    cleanOk := fun _ => true }

theorem C6_witness :
    (run_full_test envC6pr).git.current = "main"
    ∧ (run_full_test envC6).git.current = "test-merge-clean-" ++ "101010" :=
  ⟨C6_amended_trunk_restore.1 envC6pr rfl (by decide) rfl
      (fun j _ => rfl) (by decide) rfl,
    C6_amended_trunk_restore.2 envC6 rfl (by decide) rfl
      (fun j hj => by interval_cases j <;> rfl) rfl⟩

/-- Claim C10 is refuted on its truncation clause: for the remote URL
`https://github.com/org/repo.js` — a repository name containing a dot whose
first dot is not followed by exactly `git` at the end — the regular
expression does not match at all, so `get_repo_name` fails instead of
deriving the truncated `org/repo`. -/
theorem C10_counterexample :
    get_repo_name true "https://github.com/org/repo.js" = none
    ∧ get_repo_name true "https://github.com/org/repo.js" ≠ some "org/repo" :=
  by decide

/-- Claim C10 as amended: the identity is derived with the regular expression
of line 75, under which a repository name containing a dot is truncated at
that dot only when what follows it is exactly `git` at the end of the URL;
for every other dot-containing name the pattern does not match and identity
resolution fails, as it does for a URL without any match and when the remote
URL cannot be read at all. -/
theorem C10_repo_name_amended :
    get_repo_name true "git@github.com:org/repo.git" = some "org/repo"
    ∧ get_repo_name true "git@github.com:org/repo.js" = none
    ∧ get_repo_name true "https://github.com/org/repo.js" = none
    ∧ get_repo_name true "no-separator-url" = none
    ∧ get_repo_name false "git@github.com:org/repo.git" = none := by decide
